import Mathlib

set_option maxRecDepth 100000

/-!
Verification of the blackboard multi-agent MVP: a shallow embedding of the
shared message log (`blackboard.py`), the context router (`router.py`), the
worker control flow (`agents.py`), the configuration gate (`config.py`) and
the provider selection (`llm.py`), with theorems settling the specified
properties of these components.
-/

namespace BlackboardMVP

/-! ## Python-like string primitives

The source manipulates Python strings with `.lower()`, `.upper()`,
`.startswith(...)`, substring containment (`phrase in s`) and `.split()`.
We embed strings as Lean `String` and work on their character lists; the
case maps use `Char.toLower` / `Char.toUpper` (ASCII letter folding, which
is what every string the program compares against exercises). -/

/-- Python `s.lower()`. -/
def pyLower (s : String) : String := String.mk (s.data.map Char.toLower)

/-- Python `s.upper()`. -/
def pyUpper (s : String) : String := String.mk (s.data.map Char.toUpper)

/-- Python `s.startswith(p)`. -/
def pyStartsWith (s p : String) : Bool := p.data.isPrefixOf s.data

/-- Contiguous-substring test on character lists. -/
def containsSub (p : List Char) : List Char → Bool
  | [] => p.isPrefixOf []
  | c :: rest => p.isPrefixOf (c :: rest) || containsSub p rest

/-- Python `sub in s` (substring containment). -/
def pyContains (s sub : String) : Bool := containsSub sub.data s.data

/-- Word counting for Python `len(s.split())`: number of maximal runs of
non-whitespace characters.  The flag records whether we are inside a word. -/
def countWords : List Char → Bool → Nat
  | [], _ => 0
  | c :: rest, inWord =>
    if c.isWhitespace then countWords rest false
    else (if inWord then 0 else 1) + countWords rest true

/-- Python `len(s.split())`. -/
def pyWordCount (s : String) : Nat := countWords s.data false

/-! ## Data model (`blackboard.py`)

A message is the record built by `Blackboard.post`; the `timestamp` is the
wall-clock value `time.time()` supplied from outside, modelled as a `Nat`
argument to `post`. -/

structure Message where
  id : Nat
  sender : String
  text : String
  timestamp : Nat
deriving Repr, DecidableEq

structure Blackboard where
  messages : List Message
  messageId : Nat
deriving Repr, DecidableEq

/-- `Blackboard.__init__`. -/
def Blackboard.empty : Blackboard := ⟨[], 0⟩

/-- `Blackboard.post`: increment `_message_id`, append the record, return
the new id. -/
def Blackboard.post (b : Blackboard) (sender content : String) (now : Nat) :
    Blackboard × Nat :=
  let mid := b.messageId + 1
  (⟨b.messages ++ [⟨mid, sender, content, now⟩], mid⟩, mid)

/-- Python list slice `l[s:]` for an arbitrary integer start `s`:
a negative start counts from the end (clamped at 0), a non-negative start
is clamped at the length. -/
def pySliceFrom (l : List Message) (s : Int) : List Message :=
  if s < 0 then l.drop (l.length - (-s).toNat) else l.drop (min s.toNat l.length)

/-- `Blackboard.get_last_messages(count)`:
`self.messages[-count:] if self.messages else []`. -/
def Blackboard.get_last_messages (b : Blackboard) (count : Int) : List Message :=
  if b.messages.isEmpty then [] else pySliceFrom b.messages (-count)

/-- `Blackboard.get_messages_since(message_id)`: all messages with a larger id. -/
def Blackboard.get_messages_since (b : Blackboard) (message_id : Nat) : List Message :=
  b.messages.filter (fun m => message_id < m.id)

/-- `Blackboard.get_all_messages`: `self.messages.copy()`.  In this pure
model the copy is the value itself; the reference-level (aliasing) content
of `.copy()` is analysed separately in the `PyState` model below. -/
def Blackboard.get_all_messages (b : Blackboard) : List Message := b.messages

/-! ## Router (`router.py`) -/

structure Router where
  context_window : Int
  last_processed_id : Nat
deriving Repr, DecidableEq

/-- `Router.get_context_for_agent`: last `context_window` messages. -/
def Router.get_context_for_agent (r : Router) (b : Blackboard) : List Message :=
  b.get_last_messages r.context_window

/-- `Router.has_new_messages`. -/
def Router.has_new_messages (r : Router) (b : Blackboard) : Bool :=
  !(b.get_messages_since r.last_processed_id).isEmpty

/-- `Router.mark_processed`. -/
def Router.mark_processed (r : Router) (b : Blackboard) : Router :=
  match b.messages.getLast? with
  | some m => { r with last_processed_id := m.id }
  | none => r

/-- `Router.format_context`. -/
def format_context (msgs : List Message) : String :=
  if msgs.isEmpty then "No messages available."
  else String.intercalate "\n" (msgs.map (fun m => m.sender ++ ": " ++ m.text))

/-! ## Helper scenario values -/

/-- A one-message log: the empty blackboard after `post("user", "hello")`. -/
def exBoard : Blackboard := (Blackboard.empty.post "user" "hello" 0).1

/-- Fold a sequence of `post` calls (sender, text, time), collecting the
returned ids in order. -/
def runPosts : Blackboard → List (String × String × Nat) → Blackboard × List Nat
  | b, [] => (b, [])
  | b, x :: xs =>
    let step := b.post x.1 x.2.1 x.2.2
    let rest := runPosts step.1 xs
    (rest.1, step.2 :: rest.2)

/-! ## Lemmas about the log -/

theorem post_messageId (b : Blackboard) (s t : String) (n : Nat) :
    (b.post s t n).1.messageId = b.messageId + 1 := rfl

theorem runPosts_ids (xs : List (String × String × Nat)) :
    ∀ b : Blackboard, (runPosts b xs).2 = List.range' (b.messageId + 1) xs.length := by
  induction xs with
  | nil => intro b; simp [runPosts]
  | cons x xs ih =>
    intro b
    simp only [runPosts, List.length_cons, List.range'_succ]
    exact congrArg (List.cons _) (ih ((b.post x.1 x.2.1 x.2.2).1))

theorem runPosts_ids_pos (xs : List (String × String × Nat)) :
    ∀ b : Blackboard, (∀ m ∈ b.messages, 0 < m.id) →
      ∀ m ∈ (runPosts b xs).1.messages, 0 < m.id := by
  induction xs with
  | nil => intro b hb; simpa [runPosts] using hb
  | cons x xs ih =>
    intro b hb
    refine ih _ ?_
    intro m hm
    simp only [Blackboard.post, List.mem_append, List.mem_singleton] at hm
    rcases hm with hm | hm
    · exact hb m hm
    · subst hm; exact Nat.succ_pos _

theorem since_zero_of_ids_pos (b : Blackboard) (h : ∀ m ∈ b.messages, 0 < m.id) :
    b.get_messages_since 0 = b.get_all_messages := by
  unfold Blackboard.get_messages_since Blackboard.get_all_messages
  exact List.filter_eq_self.mpr (fun m hm => by simpa using h m hm)

/-- C1: `get_last_messages(0)` on a one-message log returns the whole log
(the Python slice `messages[-0:]` is `messages[0:]`), contradicting the
specified `tail(0) = empty`; the log is non-empty so the result is not
the empty sequence. -/
theorem get_last_messages_zero_returns_all :
    exBoard.get_last_messages 0 = exBoard.messages ∧ exBoard.messages.length = 1 := by
  constructor <;> rfl

/-- C2: starting from the empty log, any finite sequence of `post` calls
returns the ids `1, 2, ..., n` (strictly increasing by 1 starting at 1),
and afterwards `get_messages_since 0` coincides with `get_all_messages`. -/
theorem post_ids_strictly_increasing_and_since_zero_eq_all
    (xs : List (String × String × Nat)) :
    (runPosts Blackboard.empty xs).2 = List.range' 1 xs.length ∧
      (runPosts Blackboard.empty xs).1.get_messages_since 0 =
        (runPosts Blackboard.empty xs).1.get_all_messages := by
  constructor
  · simpa using runPosts_ids xs Blackboard.empty
  · exact since_zero_of_ids_pos _
      (runPosts_ids_pos xs Blackboard.empty (by simp [Blackboard.empty]))

/-! ## Worker control flow (`agents.py`)

The two Oracle Gateway calls (`llm_client.chat_completion`) are modelled as
`Except String String` inputs: `.ok r` is a returned response, `.error e`
an exception carrying its message.  File logging and console printing are
presentation and are not modelled. -/

/-- The apostrophe character, used inside one deflection phrase. -/
def apos : Char := Char.ofNat 39

/-- The fixed deflection-phrase list `generic_phrases` of
`BaseAgent.did_complete_task`. -/
def generic_phrases : List String :=
  ["please share", "please provide", "certainly!",
   String.mk ['i', apos, 'l', 'l', ' ', 'h', 'e', 'l', 'p'],
   "i will help", "send me", "give me"]

/-- `BaseAgent.did_complete_task`: `False` when the lowercased result
contains a deflection phrase or has fewer than 20 words, else `True`. -/
def did_complete_task (result : String) : Bool :=
  let result_lower := pyLower result
  if generic_phrases.any (fun p => pyContains result_lower p) then false
  else if pyWordCount result < 20 then false
  else true

/-- `BaseAgent.should_act`: send the decision prompt; on success the
decision is `response.upper().startswith("YES")`, and a negative decision
is additionally posted (under the agent's own name) when the
`DEBUG_DECISIONS` flag is set; on exception the decision is `False` and
nothing is posted. Returns the updated board and the decision. -/
def should_act (name : String) (debugDecisions : Bool) (b : Blackboard)
    (now : Nat) (response : Except String String) : Blackboard × Bool :=
  match response with
  | .error _ => (b, false)
  | .ok resp =>
    let decision := pyStartsWith (pyUpper resp) "YES"
    if !decision && debugDecisions then
      ((b.post name ("DECISION: " ++ resp) now).1, decision)
    else (b, decision)

/-- `BaseAgent.process_text`: the oracle response on success, the literal
error marker `"Error processing text: {e}"` on exception. -/
def process_text (response : Except String String) : String :=
  match response with
  | .ok r => r
  | .error e => "Error processing text: " ++ e

/-- A worker persona: the data that distinguishes the `BaseAgent`
subclasses as far as control flow is concerned. -/
structure Persona where
  name : String
  completion_message : String
deriving Repr, DecidableEq

/-- Result of one `BaseAgent.try_act` turn: the updated board, plus
whether each of the two Oracle Gateway endpoints was invoked. -/
structure TryActResult where
  board : Blackboard
  decisionCalled : Bool
  generationCalled : Bool
deriving Repr, DecidableEq

/-- `BaseAgent.try_act`: fetch the recency window (the agent's router is
constructed with window `W`); on empty context return immediately;
otherwise decide via `should_act`, and if affirmative post the system
"working" notice, post the processed text, and post the completion message
when `did_complete_task` holds and the persona's completion message is
non-empty. -/
def try_act (p : Persona) (debugDecisions : Bool) (W : Int) (b : Blackboard)
    (now : Nat) (decisionResponse generationResponse : Except String String) :
    TryActResult :=
  let context_messages := b.get_last_messages W
  if context_messages.isEmpty then ⟨b, false, false⟩
  else
    let step := should_act p.name debugDecisions b now decisionResponse
    if step.2 then
      let b2 := (step.1.post "system" ("🤖 " ++ p.name ++ " is working on this task...") now).1
      let result := process_text generationResponse
      let b3 := (b2.post p.name result now).1
      let b4 :=
        if did_complete_task result && !p.completion_message.isEmpty then
          (b3.post p.name p.completion_message now).1
        else b3
      ⟨b4, true, true⟩
    else ⟨step.1, true, false⟩

/-- `GrammarAgent.get_completion_message` (a persona whose completion
message is non-empty). -/
def grammar_completion : String :=
  "✅ Grammar check complete! See improved article one message above from me. The article is now polished and ready for publication."

/-- The grammar-checker persona from `agents.py`. -/
def grammarPersona : Persona := ⟨"grammar-agent", grammar_completion⟩

/-! ## Case-insensitivity of the YES test -/

theorem toNat_ofNat_of_lt {m : Nat} (h : m < 55296) : (Char.ofNat m).toNat = m := by
  have hv : m.isValidChar := Or.inl h
  rw [Char.ofNat, dif_pos hv]
  simp [Char.ofNatAux, Char.toNat, UInt32.toNat]

theorem char_toNat_inj {a b : Char} (h : a.toNat = b.toNat) : a = b := by
  have := congrArg Char.ofNat h
  rwa [Char.ofNat_toNat, Char.ofNat_toNat] at this

theorem toUpper_eq_iff_pair (c : Char) {u l : Char}
    (h1 : 65 ≤ u.toNat) (h2 : u.toNat ≤ 90) (h3 : l.toNat = u.toNat + 32) :
    c.toUpper = u ↔ (c = u ∨ c = l) := by
  unfold Char.toUpper
  by_cases h : c.toNat ≥ 97 ∧ c.toNat ≤ 122
  · rw [if_pos h]
    constructor
    · intro he
      have hn : (Char.ofNat (c.toNat - 32)).toNat = c.toNat - 32 :=
        toNat_ofNat_of_lt (by omega)
      have := congrArg Char.toNat he
      rw [hn] at this
      right
      exact char_toNat_inj (by omega)
    · rintro (rfl | rfl)
      · omega
      · have hl : c.toNat - 32 = u.toNat := by omega
        rw [hl, Char.ofNat_toNat]
  · rw [if_neg h]
    constructor
    · intro he; exact Or.inl he
    · rintro (rfl | rfl)
      · rfl
      · exact absurd (And.intro (by omega) (by omega)) h

theorem toLower_eq_iff_pair (c : Char) {u l : Char}
    (h1 : 65 ≤ u.toNat) (h2 : u.toNat ≤ 90) (h3 : l.toNat = u.toNat + 32) :
    c.toLower = l ↔ (c = u ∨ c = l) := by
  unfold Char.toLower
  by_cases h : c.toNat ≥ 65 ∧ c.toNat ≤ 90
  · rw [if_pos h]
    constructor
    · intro he
      have hn : (Char.ofNat (c.toNat + 32)).toNat = c.toNat + 32 :=
        toNat_ofNat_of_lt (by omega)
      have := congrArg Char.toNat he
      rw [hn] at this
      left
      exact char_toNat_inj (by omega)
    · rintro (rfl | rfl)
      · have hu : c.toNat + 32 = l.toNat := by omega
        rw [hu, Char.ofNat_toNat]
      · omega
  · rw [if_neg h]
    constructor
    · intro he; exact Or.inr he
    · rintro (rfl | rfl)
      · exact absurd (And.intro (by omega) (by omega)) h
      · rfl

theorem toUpper_iff_toLower (c : Char) {u l : Char}
    (h1 : 65 ≤ u.toNat) (h2 : u.toNat ≤ 90) (h3 : l.toNat = u.toNat + 32) :
    c.toUpper = u ↔ c.toLower = l := by
  rw [toUpper_eq_iff_pair c h1 h2 h3, toLower_eq_iff_pair c h1 h2 h3]

theorem yes_prefix_upper_iff_lower (l : List Char) :
    (['Y','E','S'].isPrefixOf (l.map Char.toUpper) = true) ↔
      (['y','e','s'].isPrefixOf (l.map Char.toLower) = true) := by
  match l with
  | [] => simp [List.isPrefixOf]
  | [a] => simp [List.isPrefixOf]
  | [a, b] => simp [List.isPrefixOf]
  | a :: b :: c :: t =>
    simp only [List.map, List.isPrefixOf_cons₂, List.isPrefixOf_nil_left,
      Bool.and_true, Bool.and_eq_true, beq_iff_eq]
    rw [eq_comm (a := 'Y'), eq_comm (a := 'E'), eq_comm (a := 'S'),
      eq_comm (a := 'y'), eq_comm (a := 'e'), eq_comm (a := 's')]
    rw [toUpper_iff_toLower a (u := 'Y') (l := 'y') (by decide) (by decide) (by decide),
      toUpper_iff_toLower b (u := 'E') (l := 'e') (by decide) (by decide) (by decide),
      toUpper_iff_toLower c (u := 'S') (l := 's') (by decide) (by decide) (by decide)]

/-- C7: the decision of `should_act` on a successful oracle response is
affirmative exactly when the response case-insensitively begins with
"YES" (formalised as: its lowercasing begins with "yes"). -/
theorem decision_iff_ci_prefix_yes (name : String) (dbg : Bool)
    (b : Blackboard) (now : Nat) (resp : String) :
    ((should_act name dbg b now (.ok resp)).2 = true) ↔
      pyStartsWith (pyLower resp) "yes" = true := by
  have hval : (should_act name dbg b now (.ok resp)).2 =
      pyStartsWith (pyUpper resp) "YES" := by
    simp only [should_act]
    split <;> rfl
  rw [hval]
  show (['Y','E','S'].isPrefixOf (resp.data.map Char.toUpper) = true) ↔
    (['y','e','s'].isPrefixOf (resp.data.map Char.toLower) = true)
  exact yes_prefix_upper_iff_lower resp.data

/-! ## The completion heuristic and the worker turn -/

/-- Spec-side reading of the completion heuristic: the lowercased text
contains none of the fixed deflection phrases. -/
def deflection_free (s : String) : Bool :=
  generic_phrases.all (fun p => !(pyContains (pyLower s) p))

theorem did_complete_task_eq (s : String) :
    did_complete_task s = (deflection_free s && decide (20 ≤ pyWordCount s)) := by
  unfold did_complete_task deflection_free
  by_cases h : (generic_phrases.any (fun p => pyContains (pyLower s) p)) = true
  · rw [if_pos h]
    obtain ⟨q, hq, hcon⟩ := List.any_eq_true.mp h
    have hfalse : generic_phrases.all (fun p => !(pyContains (pyLower s) p)) = false := by
      rw [List.all_eq_false]
      exact ⟨q, hq, by simp [hcon]⟩
    rw [hfalse, Bool.false_and]
  · rw [if_neg h]
    have h0 : (generic_phrases.any (fun p => pyContains (pyLower s) p)) = false :=
      Bool.eq_false_iff.mpr h
    have hall : generic_phrases.all (fun p => !(pyContains (pyLower s) p)) = true := by
      rw [List.all_eq_true]
      intro q hq
      simpa using List.any_eq_false.mp h0 q hq
    rw [hall, Bool.true_and]
    by_cases hc : pyWordCount s < 20
    · rw [if_pos hc, eq_comm, decide_eq_false_iff_not]
      omega
    · rw [if_neg hc, eq_comm, decide_eq_true_eq]
      omega

/-- C3: in a worker turn with non-empty context, an affirmative decision,
a successfully generated text and a non-empty persona completion message,
the log gains the system "working" notice and the generated text, followed
by the hand-off notice exactly when the generated text is free of the
deflection phrases and has at least 20 words.  (In particular a 19-word
text never yields the notice and a 20-word deflection-free text does.) -/
theorem handoff_notice_iff_no_deflection_and_min_words
    (p : Persona) (dbg : Bool) (W : Int) (b : Blackboard) (now : Nat)
    (decResp genText : String)
    (hctx : (b.get_last_messages W).isEmpty = false)
    (hyes : pyStartsWith (pyUpper decResp) "YES" = true)
    (hcm : p.completion_message.isEmpty = false) :
    (try_act p dbg W b now (.ok decResp) (.ok genText)).board.messages =
      b.messages ++
        [⟨b.messageId + 1, "system", "🤖 " ++ p.name ++ " is working on this task...", now⟩,
         ⟨b.messageId + 2, p.name, genText, now⟩] ++
        (if deflection_free genText && decide (20 ≤ pyWordCount genText)
         then [⟨b.messageId + 3, p.name, p.completion_message, now⟩] else []) := by
  simp only [try_act, should_act, process_text, hctx, Bool.false_eq_true, if_false,
    hyes, Bool.not_true, Bool.false_and, Bool.and_self, if_true,
    did_complete_task_eq, hcm, Bool.not_false, Bool.and_true]
  split <;> simp [Blackboard.post, List.append_assoc]

/-- C4: a worker turn whose fetched recency window is empty makes no
oracle call of either kind and leaves the log unchanged. -/
theorem empty_context_no_oracle_no_append
    (p : Persona) (dbg : Bool) (W : Int) (b : Blackboard) (now : Nat)
    (decR genR : Except String String)
    (h : (b.get_last_messages W).isEmpty = true) :
    try_act p dbg W b now decR genR = ⟨b, false, false⟩ := by
  simp [try_act, h]

/-- Closed instance of the empty-context theorem: on the empty log with
the default window 5 the worker turn is a no-op with no oracle calls. -/
theorem empty_context_no_oracle_no_append_witness :
    try_act grammarPersona false 5 Blackboard.empty 0 (.ok "YES") (.ok "text") =
      ⟨Blackboard.empty, false, false⟩ :=
  empty_context_no_oracle_no_append grammarPersona false 5 Blackboard.empty 0
    (.ok "YES") (.ok "text") (by decide)

/-- C5: oracle failures degrade gracefully.  A decision-step exception
yields a negative decision (`should_act` returns the untouched board and
`false`) and the turn ends with no posts and no generation call; a
generation-step exception in an affirmative turn posts the literal error
marker `"Error processing text: {e}"` in place of the contribution, right
after the system notice, and the turn completes. -/
theorem oracle_failure_degrades
    (p : Persona) (dbg : Bool) (W : Int) (b : Blackboard) (now : Nat)
    (e : String) (genR : Except String String) (decResp : String)
    (hctx : (b.get_last_messages W).isEmpty = false)
    (hyes : pyStartsWith (pyUpper decResp) "YES" = true) :
    should_act p.name dbg b now (.error e) = (b, false) ∧
    try_act p dbg W b now (.error e) genR = ⟨b, true, false⟩ ∧
    (try_act p dbg W b now (.ok decResp) (.error e)).board.messages.take
        (b.messages.length + 2) =
      b.messages ++
        [⟨b.messageId + 1, "system", "🤖 " ++ p.name ++ " is working on this task...", now⟩,
         ⟨b.messageId + 2, p.name, "Error processing text: " ++ e, now⟩] := by
  refine ⟨rfl, ?_, ?_⟩
  · simp [try_act, should_act, hctx]
  · simp only [try_act, should_act, process_text, hctx, Bool.false_eq_true, if_false,
      hyes, Bool.not_true, Bool.false_and, if_true]
    have hlen : (b.messages ++
        [⟨b.messageId + 1, "system", "🤖 " ++ p.name ++ " is working on this task...", now⟩,
         (⟨b.messageId + 2, p.name, "Error processing text: " ++ e, now⟩ : Message)]).length =
        b.messages.length + 2 := by simp
    split <;> simp [Blackboard.post, List.append_assoc, List.take_append, List.take_left]

/-- Closed instance of the failure-degradation theorem at a one-message
log with window 5 and a decision response "YES: go". -/
theorem oracle_failure_degrades_witness :
    should_act grammarPersona.name false exBoard 1 (.error "boom") = (exBoard, false) ∧
    try_act grammarPersona false 5 exBoard 1 (.error "boom") (.ok "text") =
      ⟨exBoard, true, false⟩ ∧
    (try_act grammarPersona false 5 exBoard 1 (.ok "YES: go") (.error "boom")).board.messages.take
        (exBoard.messages.length + 2) =
      exBoard.messages ++
        [⟨exBoard.messageId + 1, "system",
          "🤖 " ++ grammarPersona.name ++ " is working on this task...", 1⟩,
         ⟨exBoard.messageId + 2, grammarPersona.name, "Error processing text: " ++ "boom", 1⟩] :=
  oracle_failure_degrades grammarPersona false 5 exBoard 1 "boom" (.ok "text")
    "YES: go" (by decide) (by decide)

/-- An exactly-20-word text free of every deflection phrase. -/
def twentyWordText : String :=
  "one two three four five six seven eight nine ten eleven twelve thirteen fourteen fifteen sixteen seventeen eighteen nineteen twenty"

/-- Closed instance of the hand-off theorem at an exactly-20-word
deflection-free generated text (the word-count boundary). -/
theorem handoff_notice_iff_witness :
    (try_act grammarPersona false 5 exBoard 1 (.ok "YES: on it") (.ok twentyWordText)).board.messages =
      exBoard.messages ++
        [⟨exBoard.messageId + 1, "system",
          "🤖 " ++ grammarPersona.name ++ " is working on this task...", 1⟩,
         ⟨exBoard.messageId + 2, grammarPersona.name, twentyWordText, 1⟩] ++
        (if deflection_free twentyWordText && decide (20 ≤ pyWordCount twentyWordText)
         then [⟨exBoard.messageId + 3, grammarPersona.name, grammarPersona.completion_message, 1⟩]
         else []) :=
  handoff_notice_iff_no_deflection_and_min_words grammarPersona false 5 exBoard 1
    "YES: on it" twentyWordText (by decide) (by decide) (by decide)

/-! ## Debug posting of negative decisions (C9) -/

/-- C9 counterexample: with the debug flag enabled, a negative decision is
posted to the log under the worker's OWN sender identity ("writer-agent"
here), not under a system-like sender, contradicting the claim. -/
theorem debug_decision_posted_under_worker_sender :
    (should_act "writer-agent" true exBoard 1 (.ok "NO: busy")).2 = false ∧
    ((should_act "writer-agent" true exBoard 1 (.ok "NO: busy")).1.messages.getLast?).map
        Message.sender = some "writer-agent" ∧
    ((should_act "writer-agent" true exBoard 1 (.ok "NO: busy")).1.messages.getLast?).map
        Message.sender ≠ some "system" := by
  refine ⟨rfl, rfl, by decide⟩

/-- C9 amended: with the debug flag enabled a negative decision posts the
message `"DECISION: {response}"` under the worker's own sender identity;
with the flag disabled a negative decision posts nothing. -/
theorem debug_decision_under_own_name (name : String) (b : Blackboard)
    (now : Nat) (resp : String)
    (hno : pyStartsWith (pyUpper resp) "YES" = false) :
    should_act name true b now (.ok resp) =
      ((b.post name ("DECISION: " ++ resp) now).1, false) ∧
    should_act name false b now (.ok resp) = (b, false) := by
  constructor <;> simp [should_act, hno]

/-- Closed instance of the amended C9 theorem at a concrete negative
response. -/
theorem debug_decision_under_own_name_witness :
    should_act "writer-agent" true exBoard 1 (.ok "NO: busy") =
      ((exBoard.post "writer-agent" ("DECISION: " ++ "NO: busy") 1).1, false) ∧
    should_act "writer-agent" false exBoard 1 (.ok "NO: busy") = (exBoard, false) :=
  debug_decision_under_own_name "writer-agent" exBoard 1 "NO: busy" (by decide)

/-! ## One orchestrator pass with a single worker (C6)

`BlackboardSystem.agent_processing_loop`, one iteration, one agent: when
`router.has_new_messages()` holds, the agent gets one `try_act` turn and
then `router.mark_processed()` runs.  The display step is presentation. -/

def loop_iteration_single (r : Router) (agentW : Int) (p : Persona) (dbg : Bool)
    (b : Blackboard) (now : Nat) (decR genR : Except String String) :
    Router × Blackboard :=
  if r.has_new_messages b then
    let res := try_act p dbg agentW b now decR genR
    (r.mark_processed res.board, res.board)
  else (r, b)

/-- The empty log after `post("user", "Write about cats")`. -/
def c6Board : Blackboard := (Blackboard.empty.post "user" "Write about cats" 0).1

/-- A fixed 25-word string free of every deflection phrase. -/
def c6GenText : String :=
  "The quick brown fox jumps over the lazy dog while the sun sets slowly behind the distant mountains casting long shadows across the quiet valley"

/-- The C6 scenario: one pass of the loop over the single-worker system,
with the judgment oracle answering "YES: relevant" and the generation
oracle returning the fixed 25-word string. -/
def c6Run : Router × Blackboard :=
  loop_iteration_single ⟨5, 0⟩ 5 grammarPersona false c6Board 1
    (.ok "YES: relevant") (.ok c6GenText)

/-- C6 counterexample: after the pass the log has 4 entries (user message,
system notice, generated text, hand-off notice), not the claimed 3. -/
theorem e2e_pass_log_length_ne_three :
    (c6Run.2).messages.length = 4 ∧ (c6Run.2).messages.length ≠ 3 := by
  refine ⟨rfl, by decide⟩

/-- C6 amended: after the pass the log has exactly 4 entries, in order the
user message, the system "now working" notice, the worker's generated
text, and the worker's hand-off notice, with sender sequence
user, system, worker, worker; the global cursor advances to the last id. -/
theorem e2e_pass_four_entries :
    (c6Run.2).messages.map Message.sender =
      ["user", "system", "grammar-agent", "grammar-agent"] ∧
    (c6Run.2).messages.map Message.text =
      ["Write about cats", "🤖 grammar-agent is working on this task...",
       c6GenText, grammar_completion] ∧
    c6Run.1.last_processed_id = 4 := by
  refine ⟨rfl, rfl, rfl⟩

/-! ## Reference-level model of `get_all_messages` (C8)

`Blackboard.get_all_messages` returns `self.messages.copy()`: a freshly
allocated list object whose elements are references to the same message
dictionaries.  To reason about caller-side mutation we model Python
references explicitly: `listHeap` holds list objects (lists of message
addresses), `msgHeap` holds the message records, and the Log's internal
list lives at address `logList`. -/

/-- In-place update of the heap cell at index `i`. -/
def modifyAt : List α → Nat → (α → α) → List α
  | [], _, _ => []
  | a :: as, 0, f => f a :: as
  | a :: as, n + 1, f => a :: modifyAt as n f

structure PyState where
  listHeap : List (List Nat)
  msgHeap : List Message
  logList : Nat
  messageId : Nat
deriving Repr, DecidableEq

/-- Fresh process state: one empty list object (the Log's internal list). -/
def PyState.empty : PyState := ⟨[[]], [], 0, 0⟩

/-- `Blackboard.post` at the reference level: allocate the message record
and append its address to the Log's internal list object. -/
def PyState.post (s : PyState) (sender content : String) (now : Nat) :
    PyState × Nat :=
  let mid := s.messageId + 1
  let addr := s.msgHeap.length
  (⟨modifyAt s.listHeap s.logList (fun refs => refs ++ [addr]),
    s.msgHeap ++ [⟨mid, sender, content, now⟩], s.logList, mid⟩, mid)

/-- `Blackboard.get_all_messages` at the reference level:
`self.messages.copy()` allocates a NEW list object holding the SAME
message addresses, and returns its address. -/
def PyState.get_all_messages (s : PyState) : PyState × Nat :=
  (⟨s.listHeap ++ [s.listHeap.getD s.logList []], s.msgHeap, s.logList, s.messageId⟩,
   s.listHeap.length)

/-- Caller-side in-place mutation of the list object at `addr`. -/
def PyState.mutateList (s : PyState) (addr : Nat) (f : List Nat → List Nat) : PyState :=
  { s with listHeap := modifyAt s.listHeap addr f }

/-- Caller-side in-place mutation of the message record at `addr`
(e.g. `msg["text"] = ...`). -/
def PyState.mutateRecord (s : PyState) (addr : Nat) (f : Message → Message) : PyState :=
  { s with msgHeap := modifyAt s.msgHeap addr f }

/-- What the Log's subsequent reads (`all`, `tail`, `since`) observe: the
dereferenced content of the Log's internal list. -/
def PyState.readAll (s : PyState) : List Message :=
  (s.listHeap.getD s.logList []).filterMap (fun a => s.msgHeap.get? a)

theorem modifyAt_append_singleton (l : List α) (x : α) (f : α → α) :
    modifyAt (l ++ [x]) l.length f = l ++ [f x] := by
  induction l with
  | nil => rfl
  | cons a as ih => simpa [modifyAt] using ih

theorem getD_append_of_lt (l₁ l₂ : List α) (i : Nat) (h : i < l₁.length) (d : α) :
    (l₁ ++ l₂).getD i d = l₁.getD i d := by
  simp [List.getD, List.getElem?_append, h]

/-- The post-`get_all_messages` state with the one-message log. -/
def c8State : PyState := (PyState.empty.post "user" "hello" 0).1

/-- C8 counterexample: after `get_all_messages`, mutating in place the
message record reached through the first element of the RETURNED list (as
a caller does with `msgs[0]["text"] = "hacked"`) changes what the Log's
subsequent reads observe — the copy is shallow, so the claim that no
caller mutation of the returned value can affect the Log is false. -/
theorem shallow_copy_record_mutation_leaks :
    ((c8State.get_all_messages.1.listHeap.getD c8State.get_all_messages.2 []) = [0]) ∧
    (c8State.get_all_messages.1.mutateRecord 0
        (fun m => { m with text := "hacked" })).readAll.map Message.text = ["hacked"] ∧
    c8State.readAll.map Message.text = ["hello"] := by
  refine ⟨rfl, rfl, rfl⟩

/-- C8 amended: `get_all_messages` does return a freshly allocated list
object — its address is distinct from the Log's internal list, and any
in-place mutation of the returned LIST leaves the Log's reads unchanged;
the failure is only at the level of the shared message records. -/
theorem copy_list_structure_independent (s : PyState)
    (h : s.logList < s.listHeap.length) (f : List Nat → List Nat) :
    s.get_all_messages.2 ≠ s.logList ∧
    (s.get_all_messages.1.mutateList s.get_all_messages.2 f).readAll = s.readAll := by
  constructor
  · simp only [PyState.get_all_messages]
    omega
  · simp only [PyState.get_all_messages, PyState.mutateList, PyState.readAll,
      modifyAt_append_singleton]
    rw [getD_append_of_lt _ _ _ h]

/-- Closed instance of the list-structure independence theorem: clearing
the returned list in place does not change what the Log reads. -/
theorem copy_list_structure_independent_witness :
    c8State.get_all_messages.2 ≠ c8State.logList ∧
    (c8State.get_all_messages.1.mutateList c8State.get_all_messages.2
        (fun _ => [])).readAll = c8State.readAll :=
  copy_list_structure_independent c8State (by decide) (fun _ => [])

/-! ## Configuration gate and provider selection (C10)

`config.py` reads its values from the environment; we model the loaded
configuration as a record.  A Python optional string is "falsy" when it is
`None` or empty. -/

structure Config where
  llm_provider : String
  openai_api_key : Option String
  gemini_api_key : Option String
  gemini_import_ok : Bool
deriving Repr, DecidableEq

/-- Python truthiness of an optional string. -/
def truthy : Option String → Bool
  | none => false
  | some s => !s.isEmpty

/-- `Config.validate`. -/
def Config.validate (c : Config) : Bool :=
  let provider := pyLower c.llm_provider
  if provider == "openai" && !truthy c.openai_api_key then false
  else if provider == "gemini" && !truthy c.gemini_api_key then false
  else true

/-- `Config.get_missing_vars`. -/
def Config.get_missing_vars (c : Config) : List String :=
  let provider := pyLower c.llm_provider
  if provider == "openai" && !truthy c.openai_api_key then ["OPENAI_API_KEY"]
  else if provider == "gemini" && !truthy c.gemini_api_key then ["GEMINI_API_KEY"]
  else []

inductive Provider
  | openai
  | gemini
deriving Repr, DecidableEq

/-- `OpenAIProvider.is_available`: the key is not `None`. -/
def openai_is_available (c : Config) : Bool := c.openai_api_key.isSome

/-- `GeminiProvider.is_available`: the model object exists, i.e. the
package imported and the key is truthy. -/
def gemini_is_available (c : Config) : Bool :=
  c.gemini_import_ok && truthy c.gemini_api_key

/-- `LLMClient._get_active_provider`: configured provider if present in
the provider table and available, else the first available provider in
table order (openai, gemini), else the `ValueError`. -/
def get_active_provider (c : Config) : Except String Provider :=
  let provider_name := pyLower c.llm_provider
  if provider_name == "openai" && openai_is_available c then .ok .openai
  else if provider_name == "gemini" && gemini_is_available c then .ok .gemini
  else if openai_is_available c then .ok .openai
  else if gemini_is_available c then .ok .gemini
  else .error "No LLM provider is properly configured"

/-- C10: for a provider name that lowercases to neither "openai" nor
"gemini", `Config.validate` returns `True` and `Config.get_missing_vars`
returns the empty list regardless of keys, so the startup gate reports no
configuration error; with no API key configured, the no-usable-provider
`ValueError` is only raised by `LLMClient` construction. -/
theorem unknown_provider_passes_validation (c : Config)
    (h1 : pyLower c.llm_provider ≠ "openai")
    (h2 : pyLower c.llm_provider ≠ "gemini") :
    c.validate = true ∧ c.get_missing_vars = [] ∧
    (c.openai_api_key = none → c.gemini_api_key = none →
      get_active_provider c = .error "No LLM provider is properly configured") := by
  have b1 : (pyLower c.llm_provider == "openai") = false := beq_false_of_ne h1
  have b2 : (pyLower c.llm_provider == "gemini") = false := beq_false_of_ne h2
  refine ⟨?_, ?_, ?_⟩
  · simp [Config.validate, b1, b2]
  · simp [Config.get_missing_vars, b1, b2]
  · intro ho hg
    simp [get_active_provider, b1, b2, openai_is_available, gemini_is_available,
      ho, hg, truthy]

/-- Closed instance: provider "anthropic" with no keys passes validation
and only provider selection fails. -/
theorem unknown_provider_passes_validation_witness :
    (Config.mk "anthropic" none none true).validate = true ∧
    (Config.mk "anthropic" none none true).get_missing_vars = [] ∧
    ((Config.mk "anthropic" none none true).openai_api_key = none →
      (Config.mk "anthropic" none none true).gemini_api_key = none →
      get_active_provider (Config.mk "anthropic" none none true) =
        .error "No LLM provider is properly configured") :=
  unknown_provider_passes_validation (Config.mk "anthropic" none none true)
    (by decide) (by decide)

end BlackboardMVP
